import Mathlib

/-!
Verification development for the `firetv` device-control module
(`src/firetv/__init__.py`): a shallow embedding of its connection
management, diagnostic parsing, state-inference cascade and command
dispatch, together with theorems settling the specified properties.

Python strings are modelled as Lean `String` (both are sequences of
unicode scalar values); Python `None` returns are `Option.none`; a
raised Python exception is `Except.error` carrying a `PyError`.
-/

/-! ## Python string primitives -/

/-- Characters stripped by Python `str.strip()`. -/
def pyWhitespace (c : Char) : Bool :=
  c = ' ' || c = '\t' || c = '\n' || c = '\r' || c = '\x0b' || c = '\x0c'

/-- Python `s.strip()`: drop leading and trailing whitespace. -/
def pyStrip (s : String) : String :=
  String.mk (((s.toList.dropWhile pyWhitespace).reverse.dropWhile pyWhitespace).reverse)

/-- Occurrence of `needle` as a contiguous sublist of `hay`. -/
def containsSub (needle : List Char) : List Char → Bool
  | [] => needle.isEmpty
  | c :: rest => needle.isPrefixOf (c :: rest) || containsSub needle rest

/-- Python `hay.find(needle) > -1`, equivalently `needle in hay`:
substring presence. -/
def pyContains (needle hay : String) : Bool :=
  containsSub needle.toList hay.toList

/-- Split at every occurrence of the two-character separator CR LF
(Python `s.split("\x5cr\x5cn")` as used on adb shell output).
First argument is the reversed accumulator of the current piece. -/
def splitCRLF (acc : List Char) : List Char → List (List Char)
  | [] => [acc.reverse]
  | '\r' :: '\n' :: rest => acc.reverse :: splitCRLF [] rest
  | c :: rest => splitCRLF (c :: acc) rest

/-- Split at every newline character, keeping a trailing empty piece
(the line decomposition under which the end-of-line anchor of
`re.MULTILINE` is evaluated). -/
def splitNL (acc : List Char) : List Char → List (List Char)
  | [] => [acc.reverse]
  | '\n' :: rest => acc.reverse :: splitNL [] rest
  | c :: rest => splitNL (c :: acc) rest

/-- Python `str.splitlines()` restricted to the terminators CR LF, CR, LF
(the ones adb shell output contains): splits into lines and drops a final
empty piece. -/
def pySplitlines (acc : List Char) : List Char → List (List Char)
  | [] => if acc.isEmpty then [] else [acc.reverse]
  | '\r' :: '\n' :: rest => acc.reverse :: pySplitlines [] rest
  | '\r' :: rest => acc.reverse :: pySplitlines [] rest
  | '\n' :: rest => acc.reverse :: pySplitlines [] rest
  | c :: rest => pySplitlines (c :: acc) rest

/-- Python `sep.join(pieces)`. -/
def joinWith (sep : String) : List String → String
  | [] => ""
  | [s] => s
  | s :: rest => s ++ sep ++ joinWith sep rest

/-- Python `line.strip().rsplit(" ", 1)[-1]`: the part of the stripped
line after its last space (the whole stripped line when it has no space). -/
def rsplitLastField (s : String) : String :=
  String.mk (((pyStrip s).toList.reverse.takeWhile (fun c => c ≠ ' ')).reverse)

/-- Python `s.replace("\x5cr", "")`: remove every carriage return. -/
def removeCR (s : String) : String :=
  String.mk (s.toList.filter (fun c => c ≠ '\r'))

example : pyStrip ("  a b \r\n") = "a b" := by decide
example : pyContains ("state=ON") ("Display Power: state=ON") = true := by decide
example : pyContains ("state=ON") ("") = false := by decide
example : splitCRLF [] "a\r\nb\r\nc".toList = ["a".toList, "b".toList, "c".toList] := by decide
example : rsplitLastField (" u0_a12   345 com.app ") = "com.app" := by decide

/-! ## The focused-window pattern

`WINDOW_REGEX` in the source is the Python regular expression
`Window\x7b(?P<id>.+?) (?P<user>.+) (?P<package>.+?)(?:\/(?P<activity>.+?))?\x7d$`
compiled with `re.MULTILINE`, applied with `re.search` (first match,
scanning positions left to right).  `.` never crosses a newline and the
pattern ends in a literal closing brace anchored at end of line, so a
match always covers a tail segment of a single line; the functions below
implement exactly that backtracking semantics, group by group. -/

/-- The four capture groups of `WINDOW_REGEX`. -/
structure WindowMatch where
  id : String
  user : String
  package : String
  activity : Option String
deriving DecidableEq, Repr

/-- Groups `(?P<package>.+?)(?:\/(?P<activity>.+?))?` consuming the whole
input: lazy package (shortest first), with the optional slash-activity
group tried greedily at each package length.  First argument is the
reversed package accumulator. -/
def pkgSplit (acc : List Char) : List Char → Option (List Char × Option (List Char))
  | [] => if acc.isEmpty then none else some (acc.reverse, none)
  | c :: rest =>
      if c = '/' && !acc.isEmpty && !rest.isEmpty then some (acc.reverse, some rest)
      else pkgSplit (c :: acc) rest

/-- Position of the last space that still leaves a nonempty tail: returns
the pieces before and after that space (the before piece may be empty). -/
def lastSplitAtSpace : List Char → Option (List Char × List Char)
  | [] => none
  | c :: rest =>
    match lastSplitAtSpace rest with
    | some (l, r) => some (c :: l, r)
    | none => if c = ' ' && !rest.isEmpty then some ([], rest) else none

/-- Group `(?P<user>.+) ` followed by the package part: greedy user, so
split at the last space that leaves a nonempty remainder; the user itself
must be nonempty. -/
def userSplit (cs : List Char) : Option (List Char × List Char) :=
  match lastSplitAtSpace cs with
  | some (l, r) => if l.isEmpty then none else some (l, r)
  | none => none

/-- Group `(?P<id>.+?) ` followed by the user and package parts: lazy id,
so the id ends at the first space after which the rest of the groups can
still match.  First argument is the reversed id accumulator. -/
def idUserSplit (acc : List Char) : List Char → Option (List Char × List Char × List Char)
  | [] => none
  | c :: rest =>
      if c = ' ' && !acc.isEmpty then
        match userSplit rest with
        | some (u, p) => some (acc.reverse, u, p)
        | none => idUserSplit (c :: acc) rest
      else idUserSplit (c :: acc) rest

/-- Match the group part of `WINDOW_REGEX` against the full text between
the literal prelude and the final closing brace. -/
def matchInner (cs : List Char) : Option WindowMatch :=
  match idUserSplit [] cs with
  | none => none
  | some (i, u, p) =>
    match pkgSplit [] p with
    | none => none
    | some (pkg, act) =>
      some ⟨String.mk i, String.mk u, String.mk pkg, act.map String.mk⟩

/-- The literal prelude of `WINDOW_REGEX`. -/
def windowMarker : List Char := "Window\x7b".toList

/-- Attempt a match of `WINDOW_REGEX` starting exactly at the head of
`cs` and ending at the end of the line: the text must start with the
literal prelude, end with the closing brace, and the part in between must
satisfy the groups. -/
def matchAt (cs : List Char) : Option WindowMatch :=
  if windowMarker.isPrefixOf cs then
    let body := cs.drop 7
    if body.getLast? = some '\x7d' then matchInner body.dropLast else none
  else none

/-- `re.search` inside one line: try every start position left to right. -/
def searchLine : List Char → Option WindowMatch
  | [] => none
  | c :: rest =>
    match matchAt (c :: rest) with
    | some m => some m
    | none => searchLine rest

/-- `WINDOW_REGEX.search` over the line decomposition of the text: the
first line containing a match determines the result (a match never spans
lines, and `re.search` scans positions left to right). -/
def windowSearchLines (lines : List String) : Option WindowMatch :=
  lines.findSome? (fun line => searchLine line.toList)

/-- `WINDOW_REGEX.search(text)` for multi-line `text`. -/
def windowSearch (text : String) : Option WindowMatch :=
  windowSearchLines ((splitNL [] text.toList).map String.mk)

example :
    windowSearch ("mCurrentFocus=Window\x7b299091cd u0 com.netflix.ninja/com.netflix.ninja.MainActivity\x7d")
      = some ⟨"299091cd", "u0", "com.netflix.ninja", some ("com.netflix.ninja.MainActivity")⟩ := by
  decide

example :
    windowSearch ("mCurrentFocus=Window\x7babc u0 com.amazon.tv.launcher\x7d")
      = some ⟨"abc", "u0", "com.amazon.tv.launcher", none⟩ := by
  decide

example : windowSearch ("mCurrentFocus=null") = none := by decide

/-! ## Device model

The adb session (`adb_commands.AdbCommands`) is modelled by the output it
produces: `shell` for `Shell(cmd)` and `streamingShell` for
`StreamingShell(cmd)`, whose iteration yields chunks and may raise
`InvalidChecksumError` mid-stream. -/

/-- One step of iterating a `StreamingShell` generator: a delivered chunk
or a raised `InvalidChecksumError`. -/
inductive StreamItem where
  | chunk (s : String)
  | checksumError
deriving DecidableEq, Repr

/-- A live adb session, modelled by its observable shell behaviour. -/
structure AdbDevice where
  shell : String → String
  streamingShell : String → List StreamItem

/-- Python exceptions that the module can raise. -/
inductive PyError where
  /-- `AttributeError`: calling a method on `None`. -/
  | attributeError
  /-- `TypeError`: subscripting `None`. -/
  | typeError
  /-- `socket.error` with the given `errno`. -/
  | socketError (errno : Int)
  /-- `ValueError` with the given rendered message. -/
  | valueError (msg : String)
  /-- The bare `IOError` raised by `_ps` after a checksum failure. -/
  | ioError
deriving DecidableEq, Repr

/-- Whether an `Except` models a raised Python exception. -/
def isRaised {α : Type} : Except PyError α → Bool
  | .error _ => true
  | .ok _ => false

/-- `logging` levels used by the module. -/
inductive LogLevel where
  | debug
  | warning
  | error
deriving DecidableEq, Repr

/-- One rendered log record. -/
structure LogEntry where
  level : LogLevel
  msg : String
deriving DecidableEq, Repr

/-- The `FireTV` object: the endpoint and the nullable `_adb` session. -/
structure FireTV where
  host : String
  _adb : Option AdbDevice

/-- Fire TV states (module constants). -/
def STATE_ON : String := "on"

def STATE_IDLE : String := "idle"

def STATE_OFF : String := "off"

def STATE_PLAYING : String := "play"

def STATE_PAUSED : String := "pause"

def STATE_STANDBY : String := "standby"

def STATE_DISCONNECTED : String := "disconnected"

def PACKAGE_LAUNCHER : String := "com.amazon.tv.launcher"

def INTENT_LAUNCH : String := "android.intent.category.LAUNCHER"

def INTENT_HOME : String := "android.intent.category.HOME"

/-- `errno.ECONNREFUSED` (Linux value 111); the code only compares the
`errno` of a socket error against this constant. -/
def ECONNREFUSED : Int := 111

/-- The message substring `connect` uses to recognise the device-side
multi-connection bug: the quoted fragments `Unable to unpack ADB command.`
and `<6I` with their single-quote characters, written via escapes below. -/
def MULTI_CONNECTION_SIG : String :=
  "\x27Unable to unpack ADB command.\x27, \x27<6I\x27,"

/-- What `adb_commands.AdbCommands.ConnectDevice(serial=host)` does on one
invocation: succeeds with a session, raises a `socket.error`, or raises a
`ValueError` with the given rendered message. -/
inductive ConnectOutcome where
  | ok (adb : AdbDevice)
  | socketError (errno : Int)
  | valueError (msg : String)

/-- `FireTV.connect`: attempts `ConnectDevice`; a connection-refused
socket error and a `ValueError` matching the multi-connection signature
are swallowed (the latter after an error-level log), leaving `_adb` at its
previous value `adb0`; every other exception propagates.  Returns the new
value of `_adb` (or the raised exception) together with the log records. -/
def connect (host : String) (outcome : ConnectOutcome) (adb0 : Option AdbDevice) :
    Except PyError (Option AdbDevice) × List LogEntry :=
  let connecting : LogEntry := ⟨.debug, "Connecting to device \"" ++ host ++ "\""⟩
  match outcome with
  | .ok adb => (.ok (some adb), [connecting, ⟨.debug, "ADB Connection sucessful"⟩])
  | .socketError e =>
      if e ≠ ECONNREFUSED then
        (.error (.socketError e), [connecting, ⟨.debug, "Socket error"⟩])
      else
        (.ok adb0, [connecting])
  | .valueError msg =>
      if pyContains MULTI_CONNECTION_SIG msg then
        (.ok adb0,
         [connecting,
          ⟨.error, "Reboot \"" ++ host ++ "\" Fire TV, it has multiple ADB connections."⟩])
      else
        (.error (.valueError msg), [connecting])

/-- `FireTV.__init__`: `_adb` starts as `None`, then `connect` runs. -/
def initFireTV (host : String) (outcome : ConnectOutcome) :
    Except PyError FireTV × List LogEntry :=
  match connect host outcome none with
  | (.ok adb, logs) => (.ok ⟨host, adb⟩, logs)
  | (.error e, logs) => (.error e, logs)

/-- The shell command built by `FireTV._dump` for a service and an
optional grep filter. -/
def dumpCmd (service : String) (grep : Option String) : String :=
  match grep with
  | some g =>
      if g.isEmpty then ("dumpsys " ++ service)
      else ("dumpsys " ++ service ++ " | grep \"" ++ g ++ "\"")
  | none => "dumpsys " ++ service

/-- `FireTV._dump`: `None` when there is no session, otherwise the shell
output of the dump command (Python falls through to `return None` on a
falsy grep only in the sense of omitting the filter; the call sites always
pass a nonempty grep). -/
def _dump (tv : FireTV) (service : String) (grep : Option String) : Option String :=
  match tv._adb with
  | none => none
  | some adb => some (adb.shell (dumpCmd service grep))

/-- `FireTV._dump_has`: `self._dump(service, grep=grep).strip().find(search) > -1`.
When `_dump` returns `None` (no session) the `.strip()` call raises
`AttributeError`. -/
def _dump_has (tv : FireTV) (service grep search : String) : Except PyError Bool :=
  match _dump tv service (some grep) with
  | none => .error .attributeError
  | some s => .ok (pyContains search (pyStrip s))

/-- `FireTV._screen_on`. -/
def _screen_on (tv : FireTV) : Except PyError Bool :=
  _dump_has tv ("power") ("Display Power") ("state=ON")

/-- `FireTV._awake`. -/
def _awake (tv : FireTV) : Except PyError Bool :=
  _dump_has tv ("power") ("mWakefulness") ("Awake")

/-- `FireTV._wake_lock`: `not self._dump_has("power", "Locks", "size=0")`. -/
def _wake_lock (tv : FireTV) : Except PyError Bool :=
  match _dump_has tv ("power") ("Locks") ("size=0") with
  | .error e => .error e
  | .ok b => .ok (!b)

/-- `FireTV.current_app`: dump the window service, strip carriage
returns, and search with `WINDOW_REGEX`; `None` when nothing matches.
When there is no session, `_dump` returns `None` and the `.replace` call
raises `AttributeError`. -/
def current_app (tv : FireTV) : Except PyError (Option WindowMatch) :=
  match _dump tv ("window windows") (some ("mCurrentFocus")) with
  | none => .error .attributeError
  | some s => .ok (windowSearch (removeCR s))

/-- `FireTV._launcher`: `self.current_app["package"] == PACKAGE_LAUNCHER`.
Subscripting a `None` result raises `TypeError`. -/
def _launcher (tv : FireTV) : Except PyError Bool :=
  match current_app tv with
  | .error e => .error e
  | .ok none => .error .typeError
  | .ok (some app) => .ok (app.package = PACKAGE_LAUNCHER)

/-- `FireTV.state`: the inference cascade, with exceptions raised by a
step propagating out of the property. -/
def state (tv : FireTV) : Except PyError String :=
  match tv._adb with
  | none => .ok STATE_DISCONNECTED
  | some _ =>
    match _screen_on tv with
    | .error e => .error e
    | .ok screenOn =>
      if !screenOn then .ok STATE_OFF
      else
        match _awake tv with
        | .error e => .error e
        | .ok awake =>
          if !awake then .ok STATE_IDLE
          else
            match _launcher tv with
            | .error e => .error e
            | .ok launcher =>
              if launcher then .ok STATE_STANDBY
              else
                match _wake_lock tv with
                | .error e => .error e
                | .ok wl => if wl then .ok STATE_PLAYING else .ok STATE_PAUSED

/-- `FireTV.app_state`: `self.state` is evaluated once per comparison of
the short-circuiting `or`; a `None` `current_app` is subscripted and
raises `TypeError`. -/
def app_state (tv : FireTV) (app : String) : Except PyError String :=
  match state tv with
  | .error e => .error e
  | .ok s1 =>
    if s1 = STATE_OFF then .ok STATE_OFF
    else
      match state tv with
      | .error e => .error e
      | .ok s2 =>
        if s2 = STATE_DISCONNECTED then .ok STATE_OFF
        else
          match current_app tv with
          | .error e => .error e
          | .ok none => .error .typeError
          | .ok (some ca) =>
            if ca.package = app then .ok STATE_ON else .ok STATE_OFF

/-- The shell command built by `FireTV._send_intent`:
`monkey -p <pkg> -c <intent> <count>; echo $?`. -/
def sendIntentCmd (pkg intent : String) (count : Nat) : String :=
  "monkey -p " ++ pkg ++ " -c " ++ intent ++ " " ++ toString count ++ "; echo $?"

/-- The dictionary returned by `FireTV._send_intent`. -/
structure IntentResult where
  retcode : String
  output : String
deriving DecidableEq, Repr

/-- `FireTV._send_intent`: `None` without a session; otherwise the shell
output is stripped, split on CR LF, the last piece is the return code and
the earlier pieces joined with a newline are the output. -/
def _send_intent (tv : FireTV) (pkg intent : String) (count : Nat) : Option IntentResult :=
  match tv._adb with
  | none => none
  | some adb =>
    let res : List String :=
      (splitCRLF [] (pyStrip (adb.shell (sendIntentCmd pkg intent count))).toList).map String.mk
    some ⟨res.getLastD (""), joinWith ("\n") res.dropLast⟩

/-- `FireTV.launch_app`: `None` without a session, otherwise
`_send_intent(app, INTENT_LAUNCH)` with the default count 1. -/
def launch_app (tv : FireTV) (app : String) : Option IntentResult :=
  match tv._adb with
  | none => none
  | some _ => _send_intent tv app INTENT_LAUNCH 1

/-- `FireTV.stop_app`: `None` without a session, otherwise a home-category
intent sent to the launcher package, ignoring `app`. -/
def stop_app (tv : FireTV) (_app : String) : Option IntentResult :=
  match tv._adb with
  | none => none
  | some _ => _send_intent tv PACKAGE_LAUNCHER INTENT_HOME 1

/-- Consuming the `StreamingShell("ps")` iterator: each delivered chunk is
split into logical lines, lines containing `search` contribute their last
whitespace-delimited field; a `checksumError` item raises
`InvalidChecksumError` (modelled as `Except.error ()`), discarding the
partial result. -/
def psProcessChunks (search : String) : List StreamItem → Except Unit (List String)
  | [] => .ok []
  | .checksumError :: _ => .error ()
  | .chunk s :: rest =>
    let hits :=
      ((pySplitlines [] s.toList).map String.mk).filterMap
        (fun line => if pyContains search line then some (rsplitLastField line) else none)
    match psProcessChunks search rest with
    | .ok more => .ok (hits ++ more)
    | .error e => .error e

/-- The outcome of a `_ps` call: the returned value or raised exception,
plus how many times `self.connect()` was invoked during the call. -/
structure PsOutcome where
  result : Except PyError (Option (List String))
  connectCalls : Nat

/-- `FireTV._ps`: `None` without a session; otherwise consume the
streaming listing.  On `InvalidChecksumError` the handler calls
`self.connect()` once (whose own exception, if any, propagates) and then
raises `IOError`.  `reconnectOutcome` is what `ConnectDevice` would do on
that reconnect attempt. -/
def _ps (tv : FireTV) (reconnectOutcome : ConnectOutcome) (search : String) : PsOutcome :=
  match tv._adb with
  | none => ⟨.ok none, 0⟩
  | some adb =>
    match psProcessChunks search (adb.streamingShell ("ps")) with
    | .ok procs => ⟨.ok (some procs), 0⟩
    | .error _ =>
      match (connect tv.host reconnectOutcome tv._adb).1 with
      | .ok _ => ⟨.error .ioError, 1⟩
      | .error e => ⟨.error e, 1⟩

/-- `FireTV.running_apps`: `self._ps("u0_a")`. -/
def running_apps (tv : FireTV) (reconnectOutcome : ConnectOutcome) : PsOutcome :=
  _ps tv reconnectOutcome ("u0_a")

/-! ## Theorems -/

deriving instance DecidableEq for Except

/-- A nonempty string has a nonempty character list. -/
theorem toList_ne_nil {s : String} (h : s ≠ "") : s.toList ≠ [] :=
  fun hd => h (String.ext hd)

/-- C2: with no live session the state query returns `disconnected`
without raising, whatever the device would report; and a refused
connection at construction time leaves the session absent, so the state
query on the resulting device returns `disconnected` without raising. -/
theorem state_disconnected_no_session (host : String) :
    state ⟨host, none⟩ = .ok STATE_DISCONNECTED
    ∧ (initFireTV host (.socketError ECONNREFUSED)).1 = .ok ⟨host, none⟩ := by
  exact ⟨rfl, rfl⟩

/-- C10: with no live session `running_apps` returns `None`, not an empty
list of process names. -/
theorem running_apps_disconnected_none (host : String) (env : ConnectOutcome) :
    (running_apps ⟨host, none⟩ env).result = .ok none
    ∧ (running_apps ⟨host, none⟩ env).result ≠ .ok (some []) := by
  refine ⟨rfl, ?_⟩
  intro h
  simp [running_apps, _ps] at h

/-- C9 counterexample: with no live session the dump is absent and
`_dump_has` raises `AttributeError` (calling `.strip()` on `None`)
instead of returning `false`. -/
theorem dump_has_absent_session_raises :
    _dump_has ⟨"127.0.0.1:5555", none⟩ "power" "Display Power" "state=ON"
        = .error .attributeError
    ∧ _dump_has ⟨"127.0.0.1:5555", none⟩ "power" "Display Power" "state=ON"
        ≠ .ok false := by
  exact ⟨rfl, by decide⟩

/-- C9 as amended: on an empty (but present) dump the substring check
returns `false` for any nonempty needle; when the dump is absent because
there is no live session, the check raises `AttributeError` rather than
returning `false`. -/
theorem dump_contains_empty_dump_false (host service grep needle : String) (adb : AdbDevice)
    (hdump : _dump ⟨host, some adb⟩ service (some grep) = some (""))
    (hneedle : needle ≠ "") :
    _dump_has ⟨host, some adb⟩ service grep needle = .ok false
    ∧ _dump_has ⟨host, none⟩ service grep needle = .error .attributeError := by
  refine ⟨?_, rfl⟩
  have hn : needle.toList ≠ [] := toList_ne_nil hneedle
  simp only [_dump_has, hdump]
  cases hnl : needle.toList with
  | nil => exact absurd hnl hn
  | cons c cs =>
    simp only [pyContains, pyStrip, containsSub, hnl]
    simp [String.toList] at hnl
    simp [hnl, containsSub]

/-- The adb session used to witness the empty-dump case: every shell
command returns the empty string. -/
def emptyShellAdb : AdbDevice := ⟨fun _ => "", fun _ => []⟩

theorem dump_contains_empty_dump_false_witness :
    _dump_has ⟨"h", some emptyShellAdb⟩ "power" "Display Power" "state=ON" = .ok false
    ∧ _dump_has ⟨"h", none⟩ "power" "Display Power" "state=ON" = .error .attributeError :=
  dump_contains_empty_dump_false ("h") ("power") ("Display Power") ("state=ON") emptyShellAdb rfl
    (by decide)

/-- An arbitrary live adb session held by a device before a reconnect. -/
def staleAdb : AdbDevice := ⟨fun _ => "", fun _ => []⟩

/-- C6 counterexample: a refused connection on a device that already
holds a session raises nothing but leaves the old session in place — the
session does not become absent. -/
theorem connect_refused_keeps_existing_session :
    (connect ("10.0.0.1:5555") (.socketError ECONNREFUSED) (some staleAdb)).1
        = .ok (some staleAdb)
    ∧ some staleAdb ≠ (none : Option AdbDevice) := by
  exact ⟨rfl, by simp⟩

/-- C6 as amended: a refused connection raises no error and leaves the
session field unchanged — in particular absent for a freshly constructed
device, whose state query then reports `disconnected`; every socket error
with any other `errno` propagates to the caller unchanged. -/
theorem connect_refused_session_unchanged (host : String) (e : Int) (adb0 : Option AdbDevice)
    (hne : e ≠ ECONNREFUSED) :
    (connect host (.socketError ECONNREFUSED) adb0).1 = .ok adb0
    ∧ (connect host (.socketError e) adb0).1 = .error (.socketError e)
    ∧ (initFireTV host (.socketError ECONNREFUSED)).1 = .ok ⟨host, none⟩
    ∧ state ⟨host, none⟩ = .ok STATE_DISCONNECTED := by
  refine ⟨rfl, ?_, rfl, rfl⟩
  simp [connect, hne]

theorem connect_refused_session_unchanged_witness :
    (connect ("h") (.socketError ECONNREFUSED) none).1 = .ok none
    ∧ (connect ("h") (.socketError 104) none).1 = .error (.socketError 104)
    ∧ (initFireTV ("h") (.socketError ECONNREFUSED)).1 = .ok ⟨"h", none⟩
    ∧ state ⟨"h", none⟩ = .ok STATE_DISCONNECTED :=
  connect_refused_session_unchanged ("h") 104 none (by decide)

/-- A rendered `ValueError` message matching the multi-connection bug
signature that `connect` looks for. -/
def multiSessionMsg : String :=
  "(\x27Unable to unpack ADB command.\x27, \x27<6I\x27, b\x27\x27)"

/-- C7 counterexample: a connect-time `ValueError` matching the known
multi-connection bug signature is swallowed — `connect` returns normally
with the session unchanged, so nothing is reported to the caller as an
error. -/
theorem connect_multisession_not_raised :
    (connect ("10.0.0.1:5555") (.valueError multiSessionMsg) none).1 = .ok none
    ∧ isRaised (connect ("10.0.0.1:5555") (.valueError multiSessionMsg) none).1 = false := by
  exact ⟨rfl, rfl⟩

/-- C7 as amended: a connect-time `ValueError` matching the known
multi-connection bug signature is swallowed after an error-level log
record carrying the remediation hint (reboot the device, it has multiple
ADB connections), leaving the session unchanged; any other `ValueError`
propagates to the caller unchanged. -/
theorem connect_multisession_logged_swallowed (host msg : String) (adb0 : Option AdbDevice)
    (hsig : pyContains MULTI_CONNECTION_SIG msg = true) :
    connect host (.valueError msg) adb0
        = (.ok adb0,
           [⟨.debug, "Connecting to device \"" ++ host ++ "\""⟩,
            ⟨.error, "Reboot \"" ++ host ++ "\" Fire TV, it has multiple ADB connections."⟩])
    ∧ (∀ other : String, pyContains MULTI_CONNECTION_SIG other = false →
        (connect host (.valueError other) adb0).1 = .error (.valueError other)) := by
  constructor
  · simp [connect, hsig]
  · intro other hother
    simp [connect, hother]

theorem connect_multisession_logged_swallowed_witness :
    connect ("h") (.valueError multiSessionMsg) none
        = (.ok none,
           [⟨.debug, "Connecting to device \"h\""⟩,
            ⟨.error, "Reboot \"h\" Fire TV, it has multiple ADB connections."⟩]) :=
  (connect_multisession_logged_swallowed ("h") multiSessionMsg none (by decide)).1

/-- C1: the state cascade is evaluated in the exact source order — no
session gives `disconnected`; else a false screen-power fact gives `off`;
else a false wakefulness fact gives `idle`; else a launcher-focused fact
gives `standby`; else a held wake lock gives `play`; else `pause`.  In
particular, when the screen-power fact is false and the launcher fact is
true, the result is `off` and never `standby`. -/
theorem state_cascade_order (host : String) (adb : AdbDevice) :
    state ⟨host, none⟩ = .ok STATE_DISCONNECTED
    ∧ (_screen_on ⟨host, some adb⟩ = .ok false →
        state ⟨host, some adb⟩ = .ok STATE_OFF)
    ∧ (_screen_on ⟨host, some adb⟩ = .ok true →
        _awake ⟨host, some adb⟩ = .ok false →
        state ⟨host, some adb⟩ = .ok STATE_IDLE)
    ∧ (_screen_on ⟨host, some adb⟩ = .ok true →
        _awake ⟨host, some adb⟩ = .ok true →
        _launcher ⟨host, some adb⟩ = .ok true →
        state ⟨host, some adb⟩ = .ok STATE_STANDBY)
    ∧ (_screen_on ⟨host, some adb⟩ = .ok true →
        _awake ⟨host, some adb⟩ = .ok true →
        _launcher ⟨host, some adb⟩ = .ok false →
        _wake_lock ⟨host, some adb⟩ = .ok true →
        state ⟨host, some adb⟩ = .ok STATE_PLAYING)
    ∧ (_screen_on ⟨host, some adb⟩ = .ok true →
        _awake ⟨host, some adb⟩ = .ok true →
        _launcher ⟨host, some adb⟩ = .ok false →
        _wake_lock ⟨host, some adb⟩ = .ok false →
        state ⟨host, some adb⟩ = .ok STATE_PAUSED)
    ∧ (_screen_on ⟨host, some adb⟩ = .ok false →
        _launcher ⟨host, some adb⟩ = .ok true →
        state ⟨host, some adb⟩ = .ok STATE_OFF
        ∧ state ⟨host, some adb⟩ ≠ .ok STATE_STANDBY) := by
  refine ⟨rfl, ?_, ?_, ?_, ?_, ?_, ?_⟩
  · intro h1; simp [state, h1]
  · intro h1 h2; simp [state, h1, h2]
  · intro h1 h2 h3; simp [state, h1, h2, h3]
  · intro h1 h2 h3 h4; simp [state, h1, h2, h3, h4]
  · intro h1 h2 h3 h4; simp [state, h1, h2, h3, h4]
  · intro h1 _
    have hOff : state ⟨host, some adb⟩ = .ok STATE_OFF := by simp [state, h1]
    exact ⟨hOff, by rw [hOff]; decide⟩

/-- An adb session reporting the screen off while the launcher holds the
focused window: the two ambiguous facts of the precedence test. -/
def offLauncherAdb : AdbDevice :=
  ⟨fun cmd =>
      if cmd = "dumpsys window windows | grep \"mCurrentFocus\"" then
        ("mCurrentFocus=Window\x7bf3a u0 com.amazon.tv.launcher/com.amazon.tv.launcher.ui.HomeActivity\x7d")
      else if cmd = "dumpsys power | grep \"Display Power\"" then
        ("Display Power: state=OFF")
      else (""),
   fun _ => []⟩

theorem state_cascade_order_witness :
    state ⟨"h", some offLauncherAdb⟩ = .ok STATE_OFF
    ∧ state ⟨"h", some offLauncherAdb⟩ ≠ .ok STATE_STANDBY :=
  (state_cascade_order ("h") offLauncherAdb).2.2.2.2.2.2 (by decide) (by decide)

/-- C5: an `InvalidChecksumError` raised while consuming the streaming
process listing triggers exactly one reconnect attempt, after which the
listing call raises (never swallowing the failure or returning partial
results as success); when the reconnect attempt itself returns normally,
the raised exception is the retryable `IOError`. -/
theorem ps_corruption_single_reconnect (host search : String) (adb : AdbDevice)
    (env : ConnectOutcome)
    (hc : psProcessChunks search (adb.streamingShell ("ps")) = .error ()) :
    (_ps ⟨host, some adb⟩ env search).connectCalls = 1
    ∧ isRaised (_ps ⟨host, some adb⟩ env search).result = true
    ∧ (isRaised (connect host env (some adb)).1 = false →
        (_ps ⟨host, some adb⟩ env search).result = .error .ioError) := by
  have base :
      _ps ⟨host, some adb⟩ env search
        = match (connect host env (some adb)).1 with
          | .ok _ => ⟨.error .ioError, 1⟩
          | .error e => ⟨.error e, 1⟩ := by
    simp [_ps, hc]
  cases hconn : (connect host env (some adb)).1 with
  | ok a =>
    rw [hconn] at base
    exact ⟨by rw [base], by rw [base]; rfl, fun _ => by rw [base]⟩
  | error e =>
    rw [hconn] at base
    refine ⟨by rw [base], by rw [base]; rfl, fun hf => ?_⟩
    exact absurd hf (by simp [isRaised])

/-- A session whose process listing delivers one chunk and then fails the
transport integrity check. -/
def corruptStreamAdb : AdbDevice :=
  ⟨fun _ => "",
   fun cmd =>
      if cmd = "ps" then
        [.chunk ("USER PID NAME\r\nu0_a12 345 com.netflix.ninja"), .checksumError]
      else []⟩

theorem ps_corruption_single_reconnect_witness :
    (_ps ⟨"h", some corruptStreamAdb⟩ (.socketError ECONNREFUSED) "u0_a").connectCalls = 1
    ∧ isRaised (_ps ⟨"h", some corruptStreamAdb⟩ (.socketError ECONNREFUSED) "u0_a").result
        = true
    ∧ (isRaised (connect ("h") (.socketError ECONNREFUSED) (some corruptStreamAdb)).1 = false →
        (_ps ⟨"h", some corruptStreamAdb⟩ (.socketError ECONNREFUSED) "u0_a").result
          = .error .ioError) :=
  ps_corruption_single_reconnect ("h") ("u0_a") corruptStreamAdb (.socketError ECONNREFUSED) rfl

/-- C8: the structured result of `launch_app` takes the final CR-LF
separated line of the (stripped) raw shell output as the return code and
joins all preceding lines, in order, as the output; with no live session
the result is `None` rather than an error. -/
theorem launch_app_result_parsing (host app : String) (adb : AdbDevice)
    (prev : List String) (code : String)
    (hsplit :
      (splitCRLF [] (pyStrip (adb.shell (sendIntentCmd app INTENT_LAUNCH 1))).toList).map
          String.mk
        = prev ++ [code])
    (_hnum : code.toList.all Char.isDigit = true) :
    launch_app ⟨host, some adb⟩ app = some ⟨code, joinWith ("\n") prev⟩
    ∧ launch_app ⟨host, none⟩ app = none := by
  refine ⟨?_, rfl⟩
  simp only [launch_app, _send_intent, hsplit]
  rw [List.getLastD_eq_getLast?, List.getLast?_concat, List.dropLast_concat]
  rfl

/-- A session whose shell echoes one output line and the return code `0`. -/
def launchOutputAdb : AdbDevice :=
  ⟨fun _ => "Events injected: 1\r\n0\r\n", fun _ => []⟩

theorem launch_app_result_parsing_witness :
    launch_app ⟨"h", some launchOutputAdb⟩ "com.netflix.ninja"
        = some ⟨"0", "Events injected: 1"⟩
    ∧ launch_app ⟨"h", none⟩ "com.netflix.ninja" = none :=
  launch_app_result_parsing ("h") ("com.netflix.ninja") launchOutputAdb
    ["Events injected: 1"] "0" (by decide) (by decide)

/-- A window dump whose diagnostic text holds two window lines, for two
different packages. -/
def twoWindowAdb : AdbDevice :=
  ⟨fun cmd =>
      if cmd = "dumpsys window windows | grep \"mCurrentFocus\"" then
        ("mCurrentFocus=Window\x7b111 u0 com.first.app/com.first.app.Main\x7d\nmCurrentFocus=Window\x7b222 u0 com.second.app/com.second.app.Main\x7d")
      else (""),
   fun _ => []⟩

/-- C3 counterexample: on a dump holding two window lines, `current_app`
returns the facts of the first line — `re.search` yields the earliest
match — not those of the last line as claimed. -/
theorem current_app_first_line_cex :
    current_app ⟨"h", some twoWindowAdb⟩
        = .ok (some ⟨"111", "u0", "com.first.app", some ("com.first.app.Main")⟩)
    ∧ current_app ⟨"h", some twoWindowAdb⟩
        ≠ .ok (some ⟨"222", "u0", "com.second.app", some ("com.second.app.Main")⟩) := by
  exact ⟨by decide, by decide⟩

/-- C3 as amended: on a text whose earlier lines contain no window-line
match, the first line that does match determines the parse result, no
matter what follows it — the search returns the first matching line, not
the last. -/
theorem window_parse_first_match (pre post : List String) (line : String) (m : WindowMatch)
    (hpre : ∀ l ∈ pre, searchLine l.toList = none)
    (hline : searchLine line.toList = some m) :
    windowSearchLines (pre ++ line :: post) = some m := by
  induction pre with
  | nil =>
    have hline' : searchLine line.data = some m := hline
    simp [windowSearchLines, List.findSome?_cons, hline']
  | cons a as ih =>
    have ha : searchLine a.toList = none := hpre a (by simp)
    have haD : searchLine a.data = none := ha
    have has : ∀ l ∈ as, searchLine l.toList = none := fun l hl => hpre l (by simp [hl])
    have ihs := ih has
    simp only [windowSearchLines] at ihs
    simp only [windowSearchLines, List.cons_append, List.findSome?_cons, ha, haD]
    exact ihs

theorem window_parse_first_match_witness :
    windowSearchLines
        ["mCurrentFocus=null",
         "mCurrentFocus=Window\x7b299091cd u0 com.netflix.ninja/com.netflix.ninja.MainActivity\x7d",
         "mCurrentFocus=Window\x7b300 u0 com.other.app\x7d"]
      = some ⟨"299091cd", "u0", "com.netflix.ninja", some ("com.netflix.ninja.MainActivity")⟩ :=
  window_parse_first_match ["mCurrentFocus=null"]
    ["mCurrentFocus=Window\x7b300 u0 com.other.app\x7d"]
    "mCurrentFocus=Window\x7b299091cd u0 com.netflix.ninja/com.netflix.ninja.MainActivity\x7d"
    ⟨"299091cd", "u0", "com.netflix.ninja", some ("com.netflix.ninja.MainActivity")⟩
    (by intro l hl; rw [List.mem_singleton] at hl; subst hl; decide)
    (by decide)

/-- A connected session whose window dump does not match the window-line
grammar while the power dumps report the screen on and the device awake. -/
def parseFailAdb : AdbDevice :=
  ⟨fun cmd =>
      if cmd = "dumpsys power | grep \"Display Power\"" then ("Display Power: state=ON")
      else if cmd = "dumpsys power | grep \"mWakefulness\"" then ("mWakefulness=Awake")
      else if cmd = "dumpsys window windows | grep \"mCurrentFocus\"" then ("mCurrentFocus=null")
      else (""),
   fun _ => []⟩

/-- C4, the divergence at the failing input: `current_app` itself returns
absent without raising, but the standby step of the cascade (`_launcher`)
subscripts the absent result and raises `TypeError`, so the state query
and `app_state` raise instead of treating the absence conservatively. -/
theorem cascade_crashes_on_parse_failure :
    current_app ⟨"h", some parseFailAdb⟩ = .ok none
    ∧ _launcher ⟨"h", some parseFailAdb⟩ = .error .typeError
    ∧ state ⟨"h", some parseFailAdb⟩ = .error .typeError
    ∧ app_state ⟨"h", some parseFailAdb⟩ "com.netflix.ninja" = .error .typeError := by
  exact ⟨by decide, by decide, by decide, by decide⟩
